import Mathlib

/-!
Shallow embedding of the scoring and aggregation engine of the
neuro-sight-compass assessment application.

Sources embedded here:
- `src/components/AssessmentResults.tsx` — overall risk combiner
  (`calculateOverallRisk`);
- `src/components/ASDAssessment.tsx` — assessment session state machine
  (`handleStageComplete`) and the eye-tracking stage (`EyeTrackingAssessment`:
  `simulateEyeTracking`, `stopRecording`);
- `src/components/FacialAnalysisAssessment.tsx` — facial-analysis stage
  (`simulateFacialAnalysis`, `stopRecording`);
- the behavioral questionnaire component (`BehavioralQuestionnaire`:
  `handleNext`).

JavaScript numbers are modelled as `ℚ`.  The source guards every division
whose denominator can be zero with `|| 0` (NaN is coerced to 0); since in
those places the numerator is 0 whenever the denominator is 0, the Lean
convention `x / 0 = 0` on `ℚ` coincides with the JavaScript behaviour on
every state the embedded functions can receive.  The per-tick
`Math.random()` draws of the simulated sensors are abstracted into the
fields of an explicit sample record, exactly one sample per tick; the
accumulation performed on each tick is embedded verbatim as a fold step.
-/

namespace NeuroSight

/-- The three-valued risk label `'Low' | 'Medium' | 'High'` used by every
stage and by the overall combiner. -/
inductive RiskLevel
  | Low
  | Medium
  | High
deriving DecidableEq, Repr

/-- The threshold rule `score > 0.6 ? 'High' : score > 0.3 ? 'Medium' : 'Low'`
that the source inlines, textually identically, in the questionnaire stage,
both recording stages, and the overall combiner. -/
def riskLevelOf (score : ℚ) : RiskLevel :=
  if score > 6/10 then RiskLevel.High
  else if score > 3/10 then RiskLevel.Medium
  else RiskLevel.Low

/-- `Object.values(asdIndicators).filter(Boolean).length / Object.keys(asdIndicators).length`:
the fraction of indicator flags that are set. -/
def riskScoreOfFlags (flags : List Bool) : ℚ :=
  ((flags.count true : ℕ) : ℚ) / ((flags.length : ℕ) : ℚ)

/-! ## Behavioral questionnaire (`BehavioralQuestionnaire`) -/

/-- The categories of the six questions of the `questions` array, in order
(ids 1–6).  Each question offers ordinal answers 0–3. -/
def questionCategories : List String :=
  ["Social Communication", "Social Communication", "Repetitive Behaviors",
   "Sensory Processing", "Social Interaction", "Communication"]

/-- The fields of the completion payload built in `handleNext` that take part
in scoring (`categoryScores` is reporting-only and omitted). -/
structure QuestionnaireResult where
  totalScore : ℕ
  maxTotalScore : ℕ
  riskLevel : RiskLevel
deriving DecidableEq, Repr

/-- The final branch of `handleNext`: `totalScore` sums the recorded answer
values, `maxTotalScore = questions.length * 3`, and the risk level comes
straight from the ratio with the inline ternary of the source. -/
def completeQuestionnaire (answers : List ℕ) : QuestionnaireResult :=
  let totalScore := answers.sum
  let maxTotalScore := questionCategories.length * 3
  { totalScore := totalScore
    maxTotalScore := maxTotalScore
    riskLevel :=
      if ((totalScore : ℚ) / (maxTotalScore : ℚ)) > 6/10 then RiskLevel.High
      else if ((totalScore : ℚ) / (maxTotalScore : ℚ)) > 3/10 then RiskLevel.Medium
      else RiskLevel.Low }

/-! ## Eye-tracking stage (`EyeTrackingAssessment`) -/

/-- The running `metricsRef` accumulator of the eye-tracking stage. -/
structure EyeMetrics where
  fixationDuration : List ℚ
  saccadicMovements : ℕ
  blinkRate : ℕ
  gazeStability : ℚ
deriving DecidableEq, Repr

/-- The reset value installed at `startRecording`. -/
def initialEyeMetrics : EyeMetrics :=
  { fixationDuration := [], saccadicMovements := 0, blinkRate := 0, gazeStability := 0 }

/-- One tick of `simulateEyeTracking`, with the `Math.random()` draws made
explicit: the fixation time pushed this tick, whether a saccade and a blink
were counted, and the new gaze-stability value. -/
structure EyeSample where
  fixationTime : ℚ
  saccade : Bool
  blink : Bool
  gaze : ℚ

/-- The body of `simulateEyeTracking`: push the fixation time, conditionally
increment the saccade and blink counters, overwrite gaze stability. -/
def eyeStep (m : EyeMetrics) (s : EyeSample) : EyeMetrics :=
  { fixationDuration := m.fixationDuration ++ [s.fixationTime]
    saccadicMovements := m.saccadicMovements + (if s.saccade then 1 else 0)
    blinkRate := m.blinkRate + (if s.blink then 1 else 0)
    gazeStability := s.gaze }

/-- `RECORDING_DURATION = 30` seconds of the eye-tracking stage. -/
def eyeRecordingDuration : ℚ := 30

/-- The aggregate statistics computed at the top of the eye-tracking
`stopRecording` (the `metrics` object of the completion payload, without the
constant `recordingDuration` echo). -/
structure EyeSummary where
  avgFixationDuration : ℚ
  saccadicRate : ℚ
  blinkRatePerMinute : ℚ
  gazeStability : ℚ
deriving DecidableEq, Repr

/-- The aggregation half of the eye-tracking `stopRecording`:
`avgFixationDuration = sum / length || 0` (the `|| 0` covers the empty
list, where `ℚ` already yields `0 / 0 = 0`),
`saccadicRate = saccadicMovements / (RECORDING_DURATION / 60)`,
`blinkRatePerMinute = (blinkRate / RECORDING_DURATION) * 60`. -/
def eyeAggregate (finalMetrics : EyeMetrics) : EyeSummary :=
  { avgFixationDuration :=
      finalMetrics.fixationDuration.sum / ((finalMetrics.fixationDuration.length : ℕ) : ℚ)
    saccadicRate := (finalMetrics.saccadicMovements : ℚ) / (eyeRecordingDuration / 60)
    blinkRatePerMinute := ((finalMetrics.blinkRate : ℚ) / eyeRecordingDuration) * 60
    gazeStability := finalMetrics.gazeStability }

/-- The `asdIndicators` object of the eye-tracking `stopRecording`. -/
structure EyeIndicators where
  longFixations : Bool
  lowSaccadicRate : Bool
  atypicalBlinking : Bool
  poorGazeStability : Bool
deriving DecidableEq, Repr

/-- `Object.values` of the eye-tracking indicator object, in declaration
order. -/
def eyeIndicatorList (i : EyeIndicators) : List Bool :=
  [i.longFixations, i.lowSaccadicRate, i.atypicalBlinking, i.poorGazeStability]

/-- The completion payload of the eye-tracking stage. -/
structure EyeResult where
  summary : EyeSummary
  indicators : EyeIndicators
  riskScore : ℚ
  riskLevel : RiskLevel
deriving DecidableEq, Repr

/-- The classification half of the eye-tracking `stopRecording`: the four
threshold indicators, the flag-count ratio, and the inline risk-level
ternary. -/
def eyeClassify (s : EyeSummary) : EyeResult :=
  let asdIndicators : EyeIndicators :=
    { longFixations := decide (s.avgFixationDuration > 1200)
      lowSaccadicRate := decide (s.saccadicRate < 30)
      atypicalBlinking := decide (s.blinkRatePerMinute < 10) || decide (s.blinkRatePerMinute > 25)
      poorGazeStability := decide (s.gazeStability < 6/10) }
  let riskScore := riskScoreOfFlags (eyeIndicatorList asdIndicators)
  { summary := s
    indicators := asdIndicators
    riskScore := riskScore
    riskLevel :=
      if riskScore > 6/10 then RiskLevel.High
      else if riskScore > 3/10 then RiskLevel.Medium
      else RiskLevel.Low }

/-- The whole eye-tracking stage over an explicit tick sequence: accumulate
every sample with `simulateEyeTracking`, then run `stopRecording`. -/
def eyeStopRecording (samples : List EyeSample) : EyeResult :=
  eyeClassify (eyeAggregate (samples.foldl eyeStep initialEyeMetrics))

/-! ## Facial-analysis stage (`FacialAnalysisAssessment`) -/

/-- The fixed emotion vocabulary `['neutral', 'happy', 'sad', 'surprised',
'angry', 'fearful']`. -/
inductive Emotion
  | neutral
  | happy
  | sad
  | surprised
  | angry
  | fearful
deriving DecidableEq, Repr

/-- The `emotionDetection` record: one counter per fixed emotion key. -/
structure EmotionDetection where
  neutral : ℕ
  happy : ℕ
  sad : ℕ
  surprised : ℕ
  angry : ℕ
  fearful : ℕ
deriving DecidableEq, Repr

/-- `Object.entries(emotionDetection)`, in key order. -/
def emotionEntries (d : EmotionDetection) : List (String × ℕ) :=
  [("neutral", d.neutral), ("happy", d.happy), ("sad", d.sad),
   ("surprised", d.surprised), ("angry", d.angry), ("fearful", d.fearful)]

/-- `currentMetrics.emotionDetection[dominantEmotion]++`. -/
def bumpEmotion (d : EmotionDetection) : Emotion → EmotionDetection
  | Emotion.neutral => { d with neutral := d.neutral + 1 }
  | Emotion.happy => { d with happy := d.happy + 1 }
  | Emotion.sad => { d with sad := d.sad + 1 }
  | Emotion.surprised => { d with surprised := d.surprised + 1 }
  | Emotion.angry => { d with angry := d.angry + 1 }
  | Emotion.fearful => { d with fearful := d.fearful + 1 }

/-- The running `metricsRef` accumulator of the facial-analysis stage. -/
structure FacialMetrics where
  emotionDetection : EmotionDetection
  facialLandmarks : ℕ
  eyeContactFrequency : ℕ
  microExpressions : List String
  symmetryScore : ℚ
deriving DecidableEq, Repr

/-- The reset value installed at `startRecording`. -/
def initialFacialMetrics : FacialMetrics :=
  { emotionDetection := { neutral := 0, happy := 0, sad := 0, surprised := 0, angry := 0, fearful := 0 }
    facialLandmarks := 0
    eyeContactFrequency := 0
    microExpressions := []
    symmetryScore := 0 }

/-- One tick of `simulateFacialAnalysis`, with the `Math.random()` draws made
explicit: the dominant emotion of the tick, whether eye contact was counted,
the micro-expression detected this tick (if any), and the new symmetry
score. -/
structure FacialSample where
  dominantEmotion : Emotion
  eyeContact : Bool
  microExpression : Option String
  symmetry : ℚ

/-- The body of `simulateFacialAnalysis`: bump the dominant emotion, set the
landmark count to the constant 468, conditionally increment eye contact,
append an unseen micro-expression label, overwrite the symmetry score. -/
def facialStep (m : FacialMetrics) (s : FacialSample) : FacialMetrics :=
  { emotionDetection := bumpEmotion m.emotionDetection s.dominantEmotion
    facialLandmarks := 468
    eyeContactFrequency := m.eyeContactFrequency + (if s.eyeContact then 1 else 0)
    microExpressions :=
      match s.microExpression with
      | none => m.microExpressions
      | some e =>
          if m.microExpressions.contains e then m.microExpressions
          else m.microExpressions ++ [e]
    symmetryScore := s.symmetry }

/-- `RECORDING_DURATION = 45` seconds of the facial-analysis stage. -/
def facialRecordingDuration : ℚ := 45

/-- `totalEmotions`: the reduce-sum of the emotion counters. -/
def totalEmotionsOf (d : EmotionDetection) : ℕ :=
  ((emotionEntries d).map Prod.snd).sum

/-- `emotionDistribution`: per-emotion percentage of the total tally, with a
zero tally mapped to all-zero percentages. -/
def emotionDistributionOf (d : EmotionDetection) : List (String × ℚ) :=
  (emotionEntries d).map (fun p =>
    (p.1, if totalEmotionsOf d > 0
      then ((p.2 : ℚ) / ((totalEmotionsOf d : ℕ) : ℚ)) * 100
      else 0))

/-- The `asdIndicators` object of the facial-analysis `stopRecording`. -/
structure FacialIndicators where
  limitedEmotionalRange : Bool
  lowEyeContact : Bool
  reducedMicroExpressions : Bool
  facialAsymmetry : Bool
  neutralExpressionDominance : Bool
deriving DecidableEq, Repr

/-- `Object.values` of the facial indicator object, in declaration order. -/
def facialIndicatorList (i : FacialIndicators) : List Bool :=
  [i.limitedEmotionalRange, i.lowEyeContact, i.reducedMicroExpressions,
   i.facialAsymmetry, i.neutralExpressionDominance]

/-- The `metrics` object of the facial completion payload. -/
structure FacialResultMetrics where
  emotionDistribution : List (String × ℚ)
  eyeContactRate : ℚ
  microExpressions : List String
  facialSymmetry : ℚ
  landmarksDetected : ℕ
  recordingDuration : ℚ
deriving DecidableEq, Repr

/-- The completion payload of the facial-analysis stage. -/
structure FacialResult where
  metrics : FacialResultMetrics
  indicators : FacialIndicators
  riskScore : ℚ
  riskLevel : RiskLevel
deriving DecidableEq, Repr

/-- The processing part of the facial-analysis `stopRecording`: total tally,
distribution percentages, `eyeContactRate = eyeContactFrequency /
RECORDING_DURATION * 100`, the five threshold indicators (`neutral /
totalEmotions > 0.7` reads `0 / 0 = 0` at a zero tally, matching the
JavaScript `NaN > 0.7 = false`), the flag-count ratio, and the inline
risk-level ternary. -/
def processFacialMetrics (finalMetrics : FacialMetrics) : FacialResult :=
  let totalEmotions := totalEmotionsOf finalMetrics.emotionDetection
  let emotionDistribution := emotionDistributionOf finalMetrics.emotionDetection
  let eyeContactRate := ((finalMetrics.eyeContactFrequency : ℚ) / facialRecordingDuration) * 100
  let asdIndicators : FacialIndicators :=
    { limitedEmotionalRange :=
        decide ((emotionDistribution.filter (fun e => e.2 > 10)).length < 3)
      lowEyeContact := decide (eyeContactRate < 40)
      reducedMicroExpressions := decide (finalMetrics.microExpressions.length < 2)
      facialAsymmetry := decide (finalMetrics.symmetryScore < 8/10)
      neutralExpressionDominance :=
        decide (((finalMetrics.emotionDetection.neutral : ℕ) : ℚ) / ((totalEmotions : ℕ) : ℚ) > 7/10) }
  let riskScore := riskScoreOfFlags (facialIndicatorList asdIndicators)
  { metrics :=
      { emotionDistribution := emotionDistribution
        eyeContactRate := eyeContactRate
        microExpressions := finalMetrics.microExpressions
        facialSymmetry := finalMetrics.symmetryScore
        landmarksDetected := finalMetrics.facialLandmarks
        recordingDuration := facialRecordingDuration }
    indicators := asdIndicators
    riskScore := riskScore
    riskLevel :=
      if riskScore > 6/10 then RiskLevel.High
      else if riskScore > 3/10 then RiskLevel.Medium
      else RiskLevel.Low }

/-- The whole facial-analysis stage over an explicit tick sequence. -/
def facialStopRecording (samples : List FacialSample) : FacialResult :=
  processFacialMetrics (samples.foldl facialStep initialFacialMetrics)

/-! ## Overall risk combiner (`AssessmentResults.calculateOverallRisk`) -/

/-- The questionnaire entry of the `riskScores` array:
`questionnaire?.totalScore / questionnaire?.maxTotalScore`. -/
def questionnaireRiskScore (q : QuestionnaireResult) : ℚ :=
  ((q.totalScore : ℕ) : ℚ) / ((q.maxTotalScore : ℕ) : ℚ)

/-- The `riskScores` array of `calculateOverallRisk`.  Each slot holds the
corresponding stage's risk score when that stage has completed
(`questionnaire` contributes `totalScore / maxTotalScore` via
`questionnaireRiskScore`); an absent stage is coerced to 0 by the `|| 0` in
the source, here `Option.getD 0`. -/
def overallRiskScores (questionnaire eyeTracking facialAnalysis : Option ℚ) : List ℚ :=
  [questionnaire.getD 0, eyeTracking.getD 0, facialAnalysis.getD 0]

/-- `avgRisk = riskScores.reduce((sum, s) => sum + s, 0) / riskScores.length`. -/
def avgRisk (questionnaire eyeTracking facialAnalysis : Option ℚ) : ℚ :=
  (overallRiskScores questionnaire eyeTracking facialAnalysis).sum /
    (((overallRiskScores questionnaire eyeTracking facialAnalysis).length : ℕ) : ℚ)

/-- The final branches of `calculateOverallRisk`: the shared threshold
ternary plus the fixed per-level description string. -/
def calculateOverallRisk (questionnaire eyeTracking facialAnalysis : Option ℚ) :
    RiskLevel × String :=
  if avgRisk questionnaire eyeTracking facialAnalysis > 6/10 then
    (RiskLevel.High, "Multiple indicators suggest potential ASD characteristics")
  else if avgRisk questionnaire eyeTracking facialAnalysis > 3/10 then
    (RiskLevel.Medium, "Some indicators present, further evaluation recommended")
  else
    (RiskLevel.Low, "Minimal indicators detected in this assessment")

/-! ## Assessment session (`ASDAssessment.handleStageComplete`) -/

/-- The `AssessmentStage` union type of `ASDAssessment`. -/
inductive AssessmentStage
  | intro
  | questionnaire
  | eyeTracking
  | facialAnalysis
  | results
deriving DecidableEq, Repr

/-- The `stages` array (its `id` fields, in order). -/
def stagesList : List AssessmentStage :=
  [AssessmentStage.questionnaire, AssessmentStage.eyeTracking, AssessmentStage.facialAnalysis]

/-- `stages.findIndex(stage => stage.id === k)`, with the JavaScript
convention of `-1` for a stage not in the array. -/
def findStageIndex (k : AssessmentStage) : Int :=
  match stagesList.findIdx? (fun s => s == k) with
  | some i => (i : Int)
  | none => -1

/-- The React state owned by `ASDAssessment` that the claims are about:
the current stage pointer and the `assessmentData` record (one optional
stored payload per stage key).  The payload type is a parameter, matching
the source's `any`. -/
structure SessionState (α : Type) where
  currentStage : AssessmentStage
  data : AssessmentStage → Option α

/-- `handleStageComplete(stageData)`: spread the previous `assessmentData`
with `[currentStage]: stageData`, then advance the pointer — to
`stages[currentIndex + 1]` when `currentIndex < stages.length - 1`, to
`results` otherwise.  The event carries no stage identity of its own. -/
def handleStageComplete {α : Type} (s : SessionState α) (stageData : α) : SessionState α :=
  let newData : AssessmentStage → Option α :=
    fun k => if k = s.currentStage then some stageData else s.data k
  let currentIndex := findStageIndex s.currentStage
  if currentIndex < (stagesList.length : Int) - 1 then
    { currentStage := stagesList.getD (currentIndex + 1).toNat AssessmentStage.questionnaire
      data := newData }
  else
    { currentStage := AssessmentStage.results, data := newData }

/-! ## Shared lemmas -/

lemma riskLevelOf_high_iff (s : ℚ) : riskLevelOf s = RiskLevel.High ↔ s > 6/10 := by
  unfold riskLevelOf
  split_ifs with h1 h2 <;> simp_all

lemma riskLevelOf_medium_iff (s : ℚ) :
    riskLevelOf s = RiskLevel.Medium ↔ 3/10 < s ∧ s ≤ 6/10 := by
  unfold riskLevelOf
  split_ifs with h1 h2 <;> simp_all <;> linarith

lemma riskLevelOf_low_iff (s : ℚ) : riskLevelOf s = RiskLevel.Low ↔ s ≤ 3/10 := by
  unfold riskLevelOf
  split_ifs with h1 h2 <;> simp_all <;> linarith

lemma riskScoreOfFlags_nonneg (flags : List Bool) : 0 ≤ riskScoreOfFlags flags := by
  unfold riskScoreOfFlags
  positivity

lemma riskScoreOfFlags_le_one (flags : List Bool) (h : flags ≠ []) :
    riskScoreOfFlags flags ≤ 1 := by
  unfold riskScoreOfFlags
  have hlen : 0 < (flags.length : ℚ) := by
    have := List.length_pos.mpr h
    exact_mod_cast this
  rw [div_le_one hlen]
  exact_mod_cast List.count_le_length true flags

lemma foldl_eyeStep_saccadic (l : List EyeSample) (m : EyeMetrics) :
    (l.foldl eyeStep m).saccadicMovements
      = m.saccadicMovements + l.countP (fun s => s.saccade) := by
  induction l generalizing m with
  | nil => simp
  | cons a t ih =>
      simp only [List.foldl_cons, ih, List.countP_cons, eyeStep]
      cases h : a.saccade <;> simp [h] <;> omega

lemma foldl_eyeStep_blink (l : List EyeSample) (m : EyeMetrics) :
    (l.foldl eyeStep m).blinkRate = m.blinkRate + l.countP (fun s => s.blink) := by
  induction l generalizing m with
  | nil => simp
  | cons a t ih =>
      simp only [List.foldl_cons, ih, List.countP_cons, eyeStep]
      cases h : a.blink <;> simp [h] <;> omega

lemma foldl_facialStep_eyeContact (l : List FacialSample) (m : FacialMetrics) :
    (l.foldl facialStep m).eyeContactFrequency
      = m.eyeContactFrequency + l.countP (fun s => s.eyeContact) := by
  induction l generalizing m with
  | nil => simp
  | cons a t ih =>
      simp only [List.foldl_cons, ih, List.countP_cons, facialStep]
      cases h : a.eyeContact <;> simp [h] <;> omega

lemma handleStageComplete_data_eq {α : Type} (s : SessionState α) (d : α) :
    (handleStageComplete s d).data
      = fun k => if k = s.currentStage then some d else s.data k := by
  unfold handleStageComplete
  dsimp only
  split <;> rfl

/-! ## Claims -/

/-- C1, counterexample: `calculateOverallRisk` does not return a single
available score unchanged.  With only the eye-tracking stage available and
its risk score `3/4`, the computed overall score is `1/4`, not `3/4`: the
two missing stages are coerced to `0` by `|| 0` and the sum is divided by
the fixed array length 3, not by the number of available scores. -/
theorem c1_single_score_not_returned_exactly :
    avgRisk none (some (3/4)) none = 1/4 ∧ ((1 : ℚ)/4) ≠ 3/4 := by
  constructor
  · norm_num [avgRisk, overallRiskScores]
  · norm_num

/-- C1, amended: `overallScore` is the sum of the available per-stage risk
scores, with stages not yet completed counting as 0, divided by the fixed
stage count 3; in particular, with exactly one available stage score `S`
(at any of the three slots) the combiner returns `S / 3`, not `S`. -/
theorem c1_missing_stages_count_as_zero_over_three (score : ℚ) :
    avgRisk (some score) none none = score / 3
  ∧ avgRisk none (some score) none = score / 3
  ∧ avgRisk none none (some score) = score / 3 := by
  refine ⟨?_, ?_, ?_⟩ <;> · simp [avgRisk, overallRiskScores]; try ring

/-- C2, counterexample: classifying the summary aggregated from an empty
eye-tracking sample sequence yields risk level `High`, not `Low`: the
all-zero summary satisfies `lowSaccadicRate`, `atypicalBlinking` and
`poorGazeStability`, giving risk score `3/4 > 0.6`. -/
theorem c2_empty_eye_sequence_classifies_high :
    (eyeStopRecording []).riskScore = 3/4
  ∧ (eyeStopRecording []).riskLevel = RiskLevel.High
  ∧ RiskLevel.High ≠ RiskLevel.Low := by
  refine ⟨?_, ?_, by decide⟩ <;>
    norm_num [eyeStopRecording, eyeClassify, eyeAggregate, initialEyeMetrics,
      eyeIndicatorList, riskScoreOfFlags]

/-- C2, amended: aggregating an empty sample sequence yields a summary with
all rates, counts and ratios equal to 0 and no division-by-zero failure,
but classifying that summary yields risk level `High` for the eye-tracking
stage (risk score `3/4`) and `High` for the facial-analysis stage (risk
score `4/5`); only the questionnaire with no recorded answers yields
`Low`. -/
theorem c2_empty_aggregation_zero_defaults :
    eyeAggregate (([] : List EyeSample).foldl eyeStep initialEyeMetrics)
      = { avgFixationDuration := 0, saccadicRate := 0, blinkRatePerMinute := 0, gazeStability := 0 }
  ∧ (eyeStopRecording []).riskLevel = RiskLevel.High
  ∧ (facialStopRecording []).metrics.eyeContactRate = 0
  ∧ (facialStopRecording []).metrics.emotionDistribution
      = [("neutral", 0), ("happy", 0), ("sad", 0), ("surprised", 0), ("angry", 0), ("fearful", 0)]
  ∧ (facialStopRecording []).metrics.microExpressions = []
  ∧ (facialStopRecording []).metrics.facialSymmetry = 0
  ∧ (facialStopRecording []).riskScore = 4/5
  ∧ (facialStopRecording []).riskLevel = RiskLevel.High
  ∧ (completeQuestionnaire []).riskLevel = RiskLevel.Low := by
  refine ⟨?_, ?_, ?_, ?_, ?_, ?_, ?_, ?_, ?_⟩ <;>
    norm_num [eyeStopRecording, eyeClassify, eyeAggregate, initialEyeMetrics,
      eyeIndicatorList, riskScoreOfFlags, facialStopRecording, processFacialMetrics,
      initialFacialMetrics, facialIndicatorList, totalEmotionsOf, emotionEntries,
      emotionDistributionOf, facialRecordingDuration, completeQuestionnaire,
      questionCategories]

/-- C3, counterexample: with the pointer at `questionnaire` and an empty
result mapping, a completion event raised while another stage
(`eyeTracking`) is the claimed completing stage is not rejected:
`handleStageComplete` carries no stage identity, stores the payload under
the current pointer's key, and advances the pointer — the session state is
not left unchanged. -/
theorem c3_out_of_order_event_mutates_state :
    (handleStageComplete
        (SessionState.mk AssessmentStage.questionnaire (fun _ => (none : Option ℕ))) 7).currentStage
      ≠ AssessmentStage.questionnaire
  ∧ (handleStageComplete
        (SessionState.mk AssessmentStage.questionnaire (fun _ => (none : Option ℕ))) 7).data
        AssessmentStage.questionnaire
      ≠ none := by
  constructor
  · simp [handleStageComplete, findStageIndex, stagesList, List.findIdx?]
  · rw [handleStageComplete_data_eq]
    simp

/-- C3, amended: no completion event is ever rejected and no
invalid-transition condition exists: every completion event is attributed
to the stage at the current pointer (its payload is stored under that key)
and the pointer always moves to a different stage, so the session state is
never left unchanged by a completion event. -/
theorem c3_completion_always_accepted {α : Type} (s : SessionState α) (d : α) :
    (handleStageComplete s d).data s.currentStage = some d
  ∧ (handleStageComplete s d).currentStage ≠ s.currentStage := by
  constructor
  · rw [handleStageComplete_data_eq]
    simp
  · rcases s with ⟨st, data⟩
    cases st <;> simp [handleStageComplete, findStageIndex, stagesList, List.findIdx?]

/-- C4: for every non-empty indicator flag list, the risk score (count of
true flags over total flag count) lies in `[0, 1]`, and the threshold rule
classifies `High` iff score `> 0.6`, `Medium` iff `0.3 <` score `≤ 0.6`,
`Low` iff score `≤ 0.3`, with exact boundaries: `0.6` gives `Medium` and
`0.3` gives `Low`. -/
theorem c4_risk_score_range_and_threshold_boundaries (flags : List Bool) (h : flags ≠ []) :
    (0 ≤ riskScoreOfFlags flags ∧ riskScoreOfFlags flags ≤ 1)
  ∧ (riskLevelOf (riskScoreOfFlags flags) = RiskLevel.High ↔ riskScoreOfFlags flags > 6/10)
  ∧ (riskLevelOf (riskScoreOfFlags flags) = RiskLevel.Medium ↔
      3/10 < riskScoreOfFlags flags ∧ riskScoreOfFlags flags ≤ 6/10)
  ∧ (riskLevelOf (riskScoreOfFlags flags) = RiskLevel.Low ↔ riskScoreOfFlags flags ≤ 3/10)
  ∧ riskLevelOf (6/10) = RiskLevel.Medium
  ∧ riskLevelOf (3/10) = RiskLevel.Low :=
  ⟨⟨riskScoreOfFlags_nonneg flags, riskScoreOfFlags_le_one flags h⟩,
   riskLevelOf_high_iff _, riskLevelOf_medium_iff _, riskLevelOf_low_iff _,
   by norm_num [riskLevelOf], by norm_num [riskLevelOf]⟩

/-- C4, witness: two of four flags set give score `1/2`, classified
`Medium`. -/
theorem c4_witness : riskLevelOf (riskScoreOfFlags [true, false, true, false]) = RiskLevel.Medium := by
  have h12 : riskScoreOfFlags [true, false, true, false] = 1/2 := by
    simp [riskScoreOfFlags]
    norm_num
  exact ((c4_risk_score_range_and_threshold_boundaries [true, false, true, false]
    (by decide)).2.2.1).mpr (by rw [h12]; norm_num)

/-- C5: the questionnaire stage derives its risk level directly from the
ratio `totalScore / maxTotalScore` using the same `High`/`Medium`/`Low`
thresholds as the shared rule, with no indicator-flag step; with answers
summing to `totalScore = 6` out of `maxTotalScore = 18` (ratio `1/3`), the
resulting risk level is `Medium`. -/
theorem c5_questionnaire_direct_ratio_thresholds :
    (∀ answers : List ℕ,
       (completeQuestionnaire answers).riskLevel
         = riskLevelOf (((completeQuestionnaire answers).totalScore : ℚ) /
             ((completeQuestionnaire answers).maxTotalScore : ℚ)))
  ∧ (completeQuestionnaire [1, 1, 1, 1, 1, 1]).totalScore = 6
  ∧ (completeQuestionnaire [1, 1, 1, 1, 1, 1]).maxTotalScore = 18
  ∧ (completeQuestionnaire [1, 1, 1, 1, 1, 1]).riskLevel = RiskLevel.Medium := by
  refine ⟨fun answers => rfl, ?_, ?_, ?_⟩ <;>
    norm_num [completeQuestionnaire, questionCategories]

/-- C6: the eye-tracking classifier evaluates exactly four indicator
predicates — `longFixations` iff average fixation duration `> 1200` ms,
`lowSaccadicRate` iff saccadic rate `< 30` per minute, `atypicalBlinking`
iff blink rate `< 10` or `> 25` per minute, `poorGazeStability` iff gaze
stability `< 0.6` — and on the summary
`{avgFixationDuration := 1500, saccadicRate := 20, blinkRatePerMinute := 8,
gazeStability := 1/2}` all four flags are set, the risk score is `1` and
the risk level is `High`. -/
theorem c6_eye_indicator_thresholds_and_scenario :
    (∀ s : EyeSummary,
       ((eyeClassify s).indicators.longFixations = true ↔ s.avgFixationDuration > 1200)
     ∧ ((eyeClassify s).indicators.lowSaccadicRate = true ↔ s.saccadicRate < 30)
     ∧ ((eyeClassify s).indicators.atypicalBlinking = true ↔
          (s.blinkRatePerMinute < 10 ∨ s.blinkRatePerMinute > 25))
     ∧ ((eyeClassify s).indicators.poorGazeStability = true ↔ s.gazeStability < 6/10)
     ∧ (eyeIndicatorList (eyeClassify s).indicators).length = 4
     ∧ (eyeClassify s).riskScore
          = (((eyeIndicatorList (eyeClassify s).indicators).count true : ℕ) : ℚ) / 4
     ∧ (eyeClassify s).riskLevel = riskLevelOf (eyeClassify s).riskScore)
  ∧ (eyeClassify ⟨1500, 20, 8, 1/2⟩).indicators = ⟨true, true, true, true⟩
  ∧ (eyeClassify ⟨1500, 20, 8, 1/2⟩).riskScore = 1
  ∧ (eyeClassify ⟨1500, 20, 8, 1/2⟩).riskLevel = RiskLevel.High := by
  refine ⟨fun s => ⟨?_, ?_, ?_, ?_, rfl, ?_, rfl⟩, ?_, ?_, ?_⟩
  · simp [eyeClassify]
  · simp [eyeClassify]
  · simp [eyeClassify]
  · simp [eyeClassify]
  · simp [eyeClassify, riskScoreOfFlags, eyeIndicatorList]
  · norm_num [eyeClassify, eyeIndicatorList, riskScoreOfFlags]
  · norm_num [eyeClassify, eyeIndicatorList, riskScoreOfFlags]
  · norm_num [eyeClassify, eyeIndicatorList, riskScoreOfFlags]

/-- C7: the facial-analysis classifier evaluates exactly five indicator
predicates — `limitedEmotionalRange` iff fewer than 3 emotion labels each
exceed a 10% share, `lowEyeContact` iff the eye-contact rate `< 40`,
`reducedMicroExpressions` iff the distinct micro-expression count `< 2`,
`facialAsymmetry` iff the symmetry score `< 0.8`, and
`neutralExpressionDominance` iff the neutral share of the total tally
`> 0.7` — and a zero total emotion tally makes
`neutralExpressionDominance` false (the quotient defaults to 0) rather
than raising an error, while the other four predicates are still
evaluated. -/
theorem c7_facial_indicator_thresholds_and_zero_tally :
    (∀ m : FacialMetrics,
       ((processFacialMetrics m).indicators.limitedEmotionalRange = true ↔
          ((processFacialMetrics m).metrics.emotionDistribution.filter
            (fun e => e.2 > 10)).length < 3)
     ∧ ((processFacialMetrics m).indicators.lowEyeContact = true ↔
          (processFacialMetrics m).metrics.eyeContactRate < 40)
     ∧ ((processFacialMetrics m).indicators.reducedMicroExpressions = true ↔
          m.microExpressions.length < 2)
     ∧ ((processFacialMetrics m).indicators.facialAsymmetry = true ↔
          m.symmetryScore < 8/10)
     ∧ ((processFacialMetrics m).indicators.neutralExpressionDominance = true ↔
          ((m.emotionDetection.neutral : ℕ) : ℚ) /
            ((totalEmotionsOf m.emotionDetection : ℕ) : ℚ) > 7/10)
     ∧ (facialIndicatorList (processFacialMetrics m).indicators).length = 5
     ∧ (processFacialMetrics m).riskScore
          = (((facialIndicatorList (processFacialMetrics m).indicators).count true : ℕ) : ℚ) / 5)
  ∧ (∀ m : FacialMetrics,
       (processFacialMetrics
          { m with emotionDetection := EmotionDetection.mk 0 0 0 0 0 0 }).indicators.neutralExpressionDominance
         = false) := by
  refine ⟨fun m => ⟨?_, ?_, ?_, ?_, ?_, rfl, ?_⟩, fun m => ?_⟩
  · simp [processFacialMetrics]
  · simp [processFacialMetrics]
  · simp [processFacialMetrics]
  · simp [processFacialMetrics]
  · simp [processFacialMetrics]
  · simp [processFacialMetrics, riskScoreOfFlags, facialIndicatorList]
  · simp [processFacialMetrics, totalEmotionsOf, emotionEntries]
    norm_num

/-- C8: for every sample sequence — truncated or not — the rates of the
timed stages are normalized by the configured stage duration, not by the
number of collected samples: the saccadic rate is the saccade count divided
by `30 / 60`, the blink rate per minute is the blink count over `30` times
`60`, and the eye-contact rate is the eye-contact tick count over `45`
times `100`, where `30` and `45` are the fixed recording durations of the
eye-tracking and facial-analysis stages. -/
theorem c8_rates_normalized_by_configured_duration :
    (∀ samples : List EyeSample,
       (eyeAggregate (samples.foldl eyeStep initialEyeMetrics)).saccadicRate
         = ((samples.countP (fun s => s.saccade) : ℕ) : ℚ) / (eyeRecordingDuration / 60)
     ∧ (eyeAggregate (samples.foldl eyeStep initialEyeMetrics)).blinkRatePerMinute
         = (((samples.countP (fun s => s.blink) : ℕ) : ℚ) / eyeRecordingDuration) * 60)
  ∧ (∀ samples : List FacialSample,
       (facialStopRecording samples).metrics.eyeContactRate
         = (((samples.countP (fun s => s.eyeContact) : ℕ) : ℚ) / facialRecordingDuration) * 100)
  ∧ eyeRecordingDuration = 30
  ∧ facialRecordingDuration = 45 := by
  refine ⟨fun samples => ⟨?_, ?_⟩, fun samples => ?_, rfl, rfl⟩
  · simp [eyeAggregate, foldl_eyeStep_saccadic, initialEyeMetrics]
  · simp [eyeAggregate, foldl_eyeStep_blink, initialEyeMetrics]
  · simp [facialStopRecording, processFacialMetrics, foldl_facialStep_eyeContact,
      initialFacialMetrics]

/-- C9: the overall score is order-independent — permuting which available
stage slot each score is attached to (any permutation of the three slots,
hence of any available subset) leaves the computed overall score
unchanged. -/
theorem c9_overall_score_permutation_invariant (a b c : Option ℚ) :
    avgRisk a b c = avgRisk b a c
  ∧ avgRisk a b c = avgRisk a c b
  ∧ avgRisk a b c = avgRisk c b a
  ∧ avgRisk a b c = avgRisk b c a
  ∧ avgRisk a b c = avgRisk c a b := by
  refine ⟨?_, ?_, ?_, ?_, ?_⟩ <;> · simp [avgRisk, overallRiskScores]; try ring

/-- C10: completing a stage is frame-preserving on the session's result
mapping: the stored result of every stage kind other than the one at the
current pointer (the stage the event completes) is unchanged by the
event. -/
theorem c10_complete_stage_frame_preserving {α : Type} (s : SessionState α) (d : α)
    (k : AssessmentStage) (h : k ≠ s.currentStage) :
    (handleStageComplete s d).data k = s.data k := by
  rw [handleStageComplete_data_eq]
  simp [h]

/-- C10, witness: with the pointer at `questionnaire`, completing leaves the
(empty) stored entry of `eyeTracking` unchanged. -/
theorem c10_witness :
    AssessmentStage.eyeTracking
        ≠ (SessionState.mk AssessmentStage.questionnaire
            (fun _ => (none : Option ℕ))).currentStage
  ∧ (handleStageComplete
        (SessionState.mk AssessmentStage.questionnaire (fun _ => (none : Option ℕ))) 5).data
        AssessmentStage.eyeTracking
      = (SessionState.mk AssessmentStage.questionnaire
          (fun _ => (none : Option ℕ))).data AssessmentStage.eyeTracking :=
  ⟨by decide, c10_complete_stage_frame_preserving _ 5 _ (by decide)⟩

end NeuroSight
